import Mathlib

/-!
Verification development for the bitcoin-backtest repository.

The definitions below are a shallow embedding of `optimized_backtest.py`:
Python floats are modelled as rationals (`ℚ`), the mutable portfolio dict
as an explicit `Portfolio` record threaded through the driver loop, and
fallible oracle transport as an explicit outcome type.  Line numbers in
doc comments refer to `optimized_backtest.py`.
-/

namespace Backtest

/-- Portfolio state, mirroring `OptimizedBacktest.__init__` (lines 238-243):
the dict with keys `cash`, `btc`, `total_value`, `realized_profit`. -/
structure Portfolio where
  cash : ℚ
  btc : ℚ
  total_value : ℚ
  realized_profit : ℚ
deriving DecidableEq, Repr

/-- Market snapshot handed to the strategy, mirroring the `market_data`
dict built in the driver loop (lines 623-627). -/
structure MarketData where
  price : ℚ
  rsi : ℚ
  sma20 : ℚ
  sma50 : ℚ
  sma200 : ℚ
  ema12 : ℚ
  ema26 : ℚ
  macd : ℚ
  atr : ℚ
deriving DecidableEq, Repr

/-- A trading decision, mirroring the dicts returned by
`rule_based_strategy` (lines 398-403) and `_parse_ai_response`
(lines 551-570).  The rule-based dict has no `improvement` key, which is
modelled as `none`. -/
structure Decision where
  action : String
  position_size : ℚ
  reason : String
  source : String
  improvement : Option String
deriving DecidableEq, Repr

/-- Minimum trade size in USD, `self.min_trade_usd = 10` (line 249). -/
def min_trade_usd : ℚ := 10

/-- High-volatility ATR threshold, `self.atr_high = 1000` (line 250). -/
def atr_high : ℚ := 1000

/-- Initial cash endowment of the driver, `initial_cash=100000` (line 580). -/
def initial_cash : ℚ := 100000

/-- The portfolio at run start (lines 238-243). -/
def initial_portfolio : Portfolio :=
  { cash := initial_cash, btc := 0, total_value := initial_cash, realized_profit := 0 }

/-- Reason string of the high-volatility branch (line 356).  The Python
code interpolates the ATR with `f"... (ATR: ${atr:.0f}) ..."`; the numeric
formatting is abstracted as `toString`, which no claim depends on. -/
def high_vol_reason (atr : ℚ) : String :=
  "High volatility (ATR: $" ++ toString atr ++ ") - Risk management"

/-- Shallow embedding of `OptimizedBacktest.rule_based_strategy`
(lines 329-403), transliterated branch for branch, including the
`else` (sideways market) branch of the Python source. -/
def rule_based_strategy (market_data : MarketData) (portfolio_state : Portfolio) : Decision :=
  let price := market_data.price
  let rsi := market_data.rsi
  let ema12 := market_data.ema12
  let ema26 := market_data.ema26
  let macd := market_data.macd
  let atr := market_data.atr
  let cash := portfolio_state.cash
  let btc := portfolio_state.btc
  let trend_strength := if market_data.sma50 > market_data.sma200 then "BULLISH" else "BEARISH"
  let volatility_status := if atr > atr_high then "HIGH" else "NORMAL"
  let rsi_status := if rsi < 30 then "OVERSOLD" else if rsi > 70 then "OVERBOUGHT" else "NEUTRAL"
  if volatility_status = "HIGH" then
    ⟨"HOLD", 0, high_vol_reason atr, "RULE_BASED", none⟩
  else if trend_strength = "BULLISH" then
    if rsi_status = "OVERSOLD" ∧ cash > min_trade_usd then
      ⟨"BUY", 15, "Bullish trend with RSI oversold - Strong buy signal", "RULE_BASED", none⟩
    else if macd > 0 ∧ rsi < 60 ∧ cash > min_trade_usd then
      ⟨"BUY", 10, "Bullish momentum with room to grow", "RULE_BASED", none⟩
    else if price > ema12 ∧ ema12 > ema26 ∧ cash > min_trade_usd then
      ⟨"BUY", 8, "Strong uptrend confirmation", "RULE_BASED", none⟩
    else
      ⟨"HOLD", 0, "Bullish but waiting for better entry", "RULE_BASED", none⟩
  else if trend_strength = "BEARISH" then
    if rsi_status = "OVERBOUGHT" ∧ btc > 0 then
      ⟨"SELL", 15, "Bearish trend with RSI overbought - Strong sell signal", "RULE_BASED", none⟩
    else if macd < 0 ∧ rsi > 40 ∧ btc > 0 then
      ⟨"SELL", 10, "Bearish momentum building", "RULE_BASED", none⟩
    else if price < ema12 ∧ ema12 < ema26 ∧ btc > 0 then
      ⟨"SELL", 8, "Strong downtrend confirmation", "RULE_BASED", none⟩
    else
      ⟨"HOLD", 0, "Bearish but waiting for better exit", "RULE_BASED", none⟩
  else
    if rsi < 35 ∧ cash > min_trade_usd then
      ⟨"BUY", 5, "RSI oversold in sideways market", "RULE_BASED", none⟩
    else if rsi > 65 ∧ btc > 0 then
      ⟨"SELL", 5, "RSI overbought in sideways market", "RULE_BASED", none⟩
    else
      ⟨"HOLD", 0, "Sideways market - No clear signal", "RULE_BASED", none⟩

/-- Trade application of the driver loop, `run_optimized_backtest`
lines 663-694: the `BUY`/`SELL` branches of the loop body.  Returns the
updated portfolio and the `trade_executed` flag.  The profit at line 682
reads `cash` and `btc` of the portfolio before they are mutated at
lines 684-685, so it is expressed over the incoming `pf`. -/
def apply_trade (action : String) (position_size price : ℚ) (pf : Portfolio) :
    Portfolio × Bool :=
  if action = "BUY" ∧ pf.cash > min_trade_usd then
    let trade_amount := pf.cash * (position_size / 100)
    if trade_amount ≥ min_trade_usd then
      ({ pf with cash := pf.cash - trade_amount, btc := pf.btc + trade_amount / price }, true)
    else
      (pf, false)
  else if action = "SELL" ∧ pf.btc > 0 then
    let sell_quantity := pf.btc * (position_size / 100)
    if sell_quantity > 0 then
      let trade_amount := sell_quantity * price
      let profit := if pf.btc > 0 then sell_quantity * (price - pf.cash / pf.btc) else 0
      ({ pf with
          cash := pf.cash + trade_amount,
          btc := pf.btc - sell_quantity,
          realized_profit := pf.realized_profit + max profit 0 }, true)
    else
      (pf, false)
  else
    (pf, false)

/-- One iteration of the driver loop acting on the portfolio: the trade
application (lines 663-694) followed by the unconditional revaluation
`total_value = cash + btc * price` (lines 697-698). -/
def executeStep (action : String) (position_size price : ℚ) (pf : Portfolio) :
    Portfolio × Bool :=
  let r := apply_trade action position_size price pf
  ({ r.1 with total_value := r.1.cash + r.1.btc * price }, r.2)

/-- One sampled bar of the driver loop: the final decision's action and
size (lines 643-644) together with the bar's close price. -/
structure DriverStep where
  action : String
  position_size : ℚ
  price : ℚ
deriving DecidableEq, Repr

/-- The sequence of portfolio states produced by running the driver loop
body (`executeStep`) over a list of sampled bars, starting from `pf`:
one state per processed bar, in order. -/
def runTrace : List DriverStep → Portfolio → List Portfolio
  | [], _ => []
  | s :: rest, pf =>
    let pf1 := (executeStep s.action s.position_size s.price pf).1
    pf1 :: runTrace rest pf1

/-- Average cost basis as approximated by the driver at line 682:
the aggregate `cash / btc` ratio (a deliberate simplification noted in
the repository spec, not a per-lot cost basis). -/
def averageCostBasis (pf : Portfolio) : ℚ := pf.cash / pf.btc

/-- Body of a successful (status 200) oracle HTTP response, as seen by
`FastGemmaAIAgent._parse_ai_response` (lines 536-570).  `wellFormed`
stands for a body whose JSON substring parses and contains the required
`action`, `position_size` and `reason` fields (line 550); `malformed`
stands for every body on which extraction, JSON decoding or field
validation fails, all of which reach the "Safe fallback" at
lines 564-570. -/
inductive AIResponseBody where
  | malformed
  | wellFormed (action : String) (position_size : ℚ) (reason : String)
      (improvement : Option String)
deriving DecidableEq, Repr

/-- Outcome of one oracle consultation through
`requests.post(self.ollama_url, ...)` (line 486): a transport timeout, a
connection error, any other raised exception, a non-200 HTTP status, or
a 200 response carrying a body. -/
inductive OracleOutcome where
  | timeout
  | connectionError
  | otherError
  | httpError (status : Nat)
  | ok (body : AIResponseBody)
deriving DecidableEq, Repr

/-- The "Safe fallback" decision dict of `_parse_ai_response`
(lines 564-570). -/
def fallback_decision : Decision :=
  ⟨"HOLD", 0, "AI parse error", "AI_FALLBACK", some "Used fallback"⟩

/-- Shallow embedding of `FastGemmaAIAgent._parse_ai_response`
(lines 536-570): a validated body is normalized (action uppercased,
`position_size` clamped by `min(..., 20)`, source set to `AI_ENHANCED`,
missing `improvement` defaulted); every failing body yields the
fallback decision. -/
def parse_ai_response : AIResponseBody → Decision
  | .malformed => fallback_decision
  | .wellFormed action position_size reason improvement =>
    ⟨action.toUpper, min position_size 20, reason, "AI_ENHANCED",
      some (improvement.getD "Risk-adjusted position sizing")⟩

/-- Shallow embedding of `FastGemmaAIAgent._is_meaningful_improvement`
(lines 525-534). -/
def is_meaningful_improvement (rule_decision ai_decision : Decision) : Bool :=
  if rule_decision.action ≠ ai_decision.action then true
  else if |rule_decision.position_size - ai_decision.position_size| > 5 then true
  else false

/-- Shallow embedding of `FastGemmaAIAgent.get_ai_decision`
(lines 458-509).  The outcome of the significance gate
`should_use_ai` (line 460) and of the wall-clock rate-limit re-check
(lines 465-467) are time- and connection-state dependent, so they enter
as the Booleans `should_use` and `rate_limited`; the transport outcome
of the single `requests.post` call enters as `res`.  All exception
paths of the `try` block return `rule_decision` at line 509. -/
def get_ai_decision (should_use rate_limited : Bool) (res : OracleOutcome)
    (rule_decision : Decision) : Decision :=
  if !should_use then rule_decision
  else if rate_limited then rule_decision
  else
    match res with
    | .timeout => rule_decision
    | .connectionError => rule_decision
    | .otherError => rule_decision
    | .httpError _ => rule_decision
    | .ok body =>
      let ai_decision := parse_ai_response body
      if is_meaningful_improvement rule_decision ai_decision then ai_decision
      else rule_decision

/-- One OHLC price bar, restricted to the fields
`calculate_technical_indicators` reads (`High`, `Low`, `Close`). -/
structure Bar where
  high : ℚ
  low : ℚ
  close : ℚ
deriving DecidableEq, Repr

/-- A dataframe column of floats: `some` is a defined value, `none` is
pandas `NaN`. -/
abbrev Series := List (Option ℚ)

/-- Pandas `Series.diff()`: `NaN` at index 0, `x i - x (i-1)` after. -/
def diffSeries (xs : List ℚ) : Series :=
  match xs with
  | [] => []
  | _ :: rest => none :: List.zipWith (fun b a => some (b - a)) rest xs

/-- Pandas `delta.where(delta > 0, 0)` applied to a diff column: a value
is kept when it is strictly positive, everything else — including the
leading `NaN`, for which the comparison is `False` — becomes `0`.  The
resulting column therefore has no `NaN`. -/
def whereGtZero (xs : Series) : List ℚ :=
  xs.map fun d =>
    match d with
    | some v => if v > 0 then v else 0
    | none => 0

/-- Pandas `-delta.where(delta < 0, 0)`: strictly negative values are
kept and negated, everything else (including the leading `NaN`)
becomes `0`. -/
def whereLtZeroNeg (xs : Series) : List ℚ :=
  xs.map fun d =>
    match d with
    | some v => if v < 0 then -v else 0
    | none => 0

/-- Pandas `Series.rolling(k).mean()` over a `NaN`-free column: entry
`i` is the mean of the `k` values ending at `i`, and `NaN` while fewer
than `k` values are available (`min_periods` defaults to the window
size). -/
def rollingMeanQ (k : Nat) (xs : List ℚ) : Series :=
  (List.range xs.length).map fun i =>
    if i + 1 < k then none
    else some (((xs.drop (i + 1 - k)).take k).sum / (k : ℚ))

/-- Helper of `ffill`: propagates the last defined value. -/
def ffillAux (last : Option ℚ) : Series → Series
  | [] => []
  | none :: rest => last :: ffillAux last rest
  | some v :: rest => some v :: ffillAux (some v) rest

/-- Pandas `DataFrame.ffill()` on one column: each `NaN` is replaced by
the nearest defined value before it, if any. -/
def ffill (xs : Series) : Series := ffillAux none xs

/-- Pandas `DataFrame.bfill()` on one column: each `NaN` is replaced by
the nearest defined value after it, if any. -/
def bfill (xs : Series) : Series := (ffill xs.reverse).reverse

/-- The `data.ffill().bfill()` fill step of line 324, per column. -/
def fillColumn (xs : Series) : Series := bfill (ffill xs)

/-- Helper of `ewmMean`: `c = 1 - α` and the running weighted numerator
and denominator of pandas `ewm(..., adjust=True)`. -/
def ewmAux (c : ℚ) : ℚ → ℚ → List ℚ → List ℚ
  | _, _, [] => []
  | num, den, x :: rest =>
    let num1 := x + c * num
    let den1 := 1 + c * den
    num1 / den1 :: ewmAux c num1 den1 rest

/-- Pandas `Series.ewm(span=s).mean()` with the default `adjust=True`:
entry `i` is `(Σ_j (1-α)^(i-j) x_j) / (Σ_j (1-α)^(i-j))` with
`α = 2/(s+1)`; defined from the first bar on. -/
def ewmMean (span : Nat) (xs : List ℚ) : List ℚ :=
  ewmAux (1 - 2 / ((span : ℚ) + 1)) 0 0 xs

/-- RSI from one rolling-mean gain/loss pair, following line 302-303:
`rs = gain / loss`, `RSI = 100 - 100/(1+rs)`.  The float semantics of
the quotient are made explicit: positive gain over zero loss is `+∞`,
giving RSI `100`; `0/0` is `NaN`. -/
def rsiCombine : Option ℚ → Option ℚ → Option ℚ
  | some g, some l =>
    if l = 0 then (if g = 0 then none else some 100)
    else some (100 - 100 / (1 + g / l))
  | _, _ => none

/-- Pandas `Close.shift()`: previous close, `NaN` at index 0. -/
def prevClose (closes : List ℚ) : Series :=
  match closes with
  | [] => []
  | _ :: _ => none :: closes.dropLast.map some

/-- One row of `pd.concat([...]).max(axis=1)` (line 320): the maximum of
`high-low`, `|high-prevClose|` and `|low-prevClose|`, skipping the
`NaN` entries (pandas `skipna` default); at index 0 only `high-low` is
defined. -/
def trueRangeRow (b : Bar) (pc : Option ℚ) : ℚ :=
  let hl := b.high - b.low
  match pc with
  | some c => max hl (max |b.high - c| |b.low - c|)
  | none => hl

/-- The `true_range` column of lines 317-320. -/
def trueRange (bars : List Bar) : List ℚ :=
  List.zipWith trueRangeRow bars (prevClose (bars.map Bar.close))

/-- The indicator columns produced by `calculate_technical_indicators`.
Columns that can contain `NaN` are `Series`; the EMA/MACD columns are
defined from bar 0 on (`ewm` has no warm-up gap) and are plain
lists. -/
structure IndicatorData where
  close : List ℚ
  rsi14 : Series
  sma20 : Series
  sma50 : Series
  sma200 : Series
  ema12 : List ℚ
  ema26 : List ℚ
  macd : List ℚ
  macd_signal : List ℚ
  atr14 : Series

/-- Shallow embedding of `OptimizedBacktest.calculate_technical_indicators`
(lines 292-327): RSI(14), SMA(20/50/200), EMA(12/26), MACD and its
signal, ATR(14), followed by the `data.ffill().bfill()` fill of
line 324 applied to each column (a no-op on the `NaN`-free ones). -/
def calculate_technical_indicators (bars : List Bar) : IndicatorData :=
  let closes := bars.map Bar.close
  let delta := diffSeries closes
  let gain := rollingMeanQ 14 (whereGtZero delta)
  let loss := rollingMeanQ 14 (whereLtZeroNeg delta)
  let rsi := List.zipWith rsiCombine gain loss
  let ema12 := ewmMean 12 closes
  let ema26 := ewmMean 26 closes
  let macd := List.zipWith (fun a b => a - b) ema12 ema26
  { close := closes
    rsi14 := fillColumn rsi
    sma20 := fillColumn (rollingMeanQ 20 closes)
    sma50 := fillColumn (rollingMeanQ 50 closes)
    sma200 := fillColumn (rollingMeanQ 200 closes)
    ema12 := ema12
    ema26 := ema26
    macd := macd
    macd_signal := ewmMean 9 macd
    atr14 := fillColumn (rollingMeanQ 14 (trueRange bars)) }

/-- Division instrumented with its Python error branch: in Python,
`a / b` raises `ZeroDivisionError` when `b == 0`; here that branch is
`none`. -/
def checkedDiv (a b : ℚ) : Option ℚ :=
  if b = 0 then none else some (a / b)

/-- Variant of `apply_trade` in which the average-cost-basis division
`cash / btc` of line 682 is instrumented with `checkedDiv`: the result
is `none` exactly when that division would raise `ZeroDivisionError`.
Everything else is identical to `apply_trade`. -/
def apply_trade_profit_checked (action : String) (position_size price : ℚ)
    (pf : Portfolio) : Option (Portfolio × Bool) :=
  if action = "BUY" ∧ pf.cash > min_trade_usd then
    let trade_amount := pf.cash * (position_size / 100)
    if trade_amount ≥ min_trade_usd then
      some ({ pf with cash := pf.cash - trade_amount, btc := pf.btc + trade_amount / price },
        true)
    else
      some (pf, false)
  else if action = "SELL" ∧ pf.btc > 0 then
    let sell_quantity := pf.btc * (position_size / 100)
    if sell_quantity > 0 then
      let trade_amount := sell_quantity * price
      match (if pf.btc > 0 then
          (checkedDiv pf.cash pf.btc).map (fun acb => sell_quantity * (price - acb))
        else some 0) with
      | none => none
      | some profit =>
        some ({ pf with
            cash := pf.cash + trade_amount,
            btc := pf.btc - sell_quantity,
            realized_profit := pf.realized_profit + max profit 0 }, true)
    else
      some (pf, false)
  else
    some (pf, false)

/-! ## Helper lemmas -/

theorem is_meaningful_improvement_eq_true (rule_decision ai_decision : Decision) :
    is_meaningful_improvement rule_decision ai_decision = true ↔
      (rule_decision.action ≠ ai_decision.action ∨
        |rule_decision.position_size - ai_decision.position_size| > 5) := by
  by_cases h1 : rule_decision.action = ai_decision.action <;>
    by_cases h2 : |rule_decision.position_size - ai_decision.position_size| > 5 <;>
      simp [is_meaningful_improvement, h1, h2]

theorem rule_based_strategy_size_le (market_data : MarketData) (portfolio_state : Portfolio) :
    (rule_based_strategy market_data portfolio_state).position_size ≤ 20 := by
  unfold rule_based_strategy
  split_ifs <;> try simp_all
  all_goals split_ifs <;> try simp_all
  all_goals norm_num

theorem parse_ai_response_size_le (body : AIResponseBody) :
    (parse_ai_response body).position_size ≤ 20 := by
  cases body with
  | malformed => norm_num [parse_ai_response, fallback_decision]
  | wellFormed a ps r imp =>
    simp only [parse_ai_response]
    exact min_le_right ps 20

theorem get_ai_decision_size_le (should_use rate_limited : Bool) (res : OracleOutcome)
    (rule_decision : Decision) (h : rule_decision.position_size ≤ 20) :
    (get_ai_decision should_use rate_limited res rule_decision).position_size ≤ 20 := by
  cases should_use with
  | false => simpa [get_ai_decision] using h
  | true =>
    cases rate_limited with
    | true => simpa [get_ai_decision] using h
    | false =>
      cases res with
      | timeout => simpa [get_ai_decision] using h
      | connectionError => simpa [get_ai_decision] using h
      | otherError => simpa [get_ai_decision] using h
      | httpError s => simpa [get_ai_decision] using h
      | ok body =>
        by_cases hm : is_meaningful_improvement rule_decision (parse_ai_response body) = true
        · simpa [get_ai_decision, hm] using parse_ai_response_size_le body
        · simpa [get_ai_decision, hm] using h

theorem apply_trade_nonneg (action : String) (position_size price : ℚ) (pf : Portfolio)
    (hc : 0 ≤ pf.cash) (hb : 0 ≤ pf.btc) (hsz : position_size ≤ 20) (hp : 0 < price) :
    0 ≤ (apply_trade action position_size price pf).1.cash ∧
      0 ≤ (apply_trade action position_size price pf).1.btc := by
  by_cases h1 : action = "BUY" ∧ pf.cash > min_trade_usd
  · by_cases h2 : pf.cash * (position_size / 100) ≥ min_trade_usd
    · have hred : apply_trade action position_size price pf =
          ({ pf with
              cash := pf.cash - pf.cash * (position_size / 100),
              btc := pf.btc + pf.cash * (position_size / 100) / price }, true) := by
        simp [apply_trade, h1, h2]
      have hta : (0 : ℚ) ≤ pf.cash * (position_size / 100) := by
        have h10 : (10 : ℚ) ≤ pf.cash * (position_size / 100) := h2
        linarith
      rw [hred]
      constructor
      · have key : pf.cash - pf.cash * (position_size / 100) =
            pf.cash * (100 - position_size) / 100 := by ring
        show (0 : ℚ) ≤ pf.cash - pf.cash * (position_size / 100)
        rw [key]
        exact div_nonneg (mul_nonneg hc (by linarith)) (by norm_num)
      · exact add_nonneg hb (div_nonneg hta hp.le)
    · have hred : apply_trade action position_size price pf = (pf, false) := by
        simp [apply_trade, h1, h2]
      rw [hred]
      exact ⟨hc, hb⟩
  · by_cases h3 : action = "SELL" ∧ pf.btc > 0
    · by_cases h4 : pf.btc * (position_size / 100) > 0
      · have hred : apply_trade action position_size price pf =
            ({ pf with
                cash := pf.cash + pf.btc * (position_size / 100) * price,
                btc := pf.btc - pf.btc * (position_size / 100),
                realized_profit := pf.realized_profit +
                  max (pf.btc * (position_size / 100) * (price - pf.cash / pf.btc)) 0 },
              true) := by
          simp [apply_trade, h1, h3, h4, h3.2]
        rw [hred]
        constructor
        · exact add_nonneg hc (mul_nonneg h4.le hp.le)
        · have key : pf.btc - pf.btc * (position_size / 100) =
              pf.btc * (100 - position_size) / 100 := by ring
          show (0 : ℚ) ≤ pf.btc - pf.btc * (position_size / 100)
          rw [key]
          exact div_nonneg (mul_nonneg hb (by linarith)) (by norm_num)
      · have hred : apply_trade action position_size price pf = (pf, false) := by
          simp [apply_trade, h1, h3, h4]
        rw [hred]
        exact ⟨hc, hb⟩
    · have hred : apply_trade action position_size price pf = (pf, false) := by
        simp [apply_trade, h1, h3]
      rw [hred]
      exact ⟨hc, hb⟩

theorem executeStep_nonneg (action : String) (position_size price : ℚ) (pf : Portfolio)
    (hc : 0 ≤ pf.cash) (hb : 0 ≤ pf.btc) (hsz : position_size ≤ 20) (hp : 0 < price) :
    0 ≤ (executeStep action position_size price pf).1.cash ∧
      0 ≤ (executeStep action position_size price pf).1.btc :=
  apply_trade_nonneg action position_size price pf hc hb hsz hp

theorem runTrace_nonneg (steps : List DriverStep)
    (hall : ∀ s ∈ steps, s.position_size ≤ 20 ∧ 0 < s.price) :
    ∀ pf0 : Portfolio, 0 ≤ pf0.cash → 0 ≤ pf0.btc →
      ∀ pf ∈ runTrace steps pf0, 0 ≤ pf.cash ∧ 0 ≤ pf.btc := by
  induction steps with
  | nil => intro pf0 _ _ pf hpf; simp [runTrace] at hpf
  | cons s rest ih =>
    intro pf0 hc hb pf hpf
    have hs : s.position_size ≤ 20 ∧ 0 < s.price := hall s (List.mem_cons_self s rest)
    have hstep := executeStep_nonneg s.action s.position_size s.price pf0 hc hb hs.1 hs.2
    simp only [runTrace, List.mem_cons] at hpf
    rcases hpf with h | h
    · rw [h]; exact hstep
    · exact ih (fun t ht => hall t (List.mem_cons_of_mem s ht)) _ hstep.1 hstep.2 pf h

theorem apply_trade_realized_mono (action : String) (position_size price : ℚ)
    (pf : Portfolio) :
    pf.realized_profit ≤ (apply_trade action position_size price pf).1.realized_profit := by
  by_cases h1 : action = "BUY" ∧ pf.cash > min_trade_usd
  · by_cases h2 : pf.cash * (position_size / 100) ≥ min_trade_usd <;>
      simp [apply_trade, h1, h2]
  · by_cases h3 : action = "SELL" ∧ pf.btc > 0
    · by_cases h4 : pf.btc * (position_size / 100) > 0
      · simp only [apply_trade, if_neg h1, h3, and_self, if_true, if_pos h4]
        exact le_add_of_nonneg_right (le_max_right _ _)
      · simp [apply_trade, h1, h3, h4]
    · simp [apply_trade, h1, h3]

theorem executeStep_realized_mono (action : String) (position_size price : ℚ)
    (pf : Portfolio) :
    pf.realized_profit ≤ (executeStep action position_size price pf).1.realized_profit :=
  apply_trade_realized_mono action position_size price pf

theorem runTrace_realized_chain (steps : List DriverStep) :
    ∀ pf0 : Portfolio,
      List.Chain (fun a b => a.realized_profit ≤ b.realized_profit) pf0
        (runTrace steps pf0) := by
  induction steps with
  | nil => intro pf0; exact List.Chain.nil
  | cons s rest ih =>
    intro pf0
    exact List.Chain.cons
      (executeStep_realized_mono s.action s.position_size s.price pf0) (ih _)

theorem rollingMeanQ_short (k : Nat) (xs : List ℚ) (h : xs.length < k) :
    rollingMeanQ k xs = List.replicate xs.length none := by
  rw [List.eq_replicate_iff]
  constructor
  · simp [rollingMeanQ]
  · intro b hb
    simp only [rollingMeanQ, List.mem_map, List.mem_range] at hb
    obtain ⟨i, hi, hbe⟩ := hb
    rw [if_pos (by omega)] at hbe
    exact hbe.symm

theorem ffillAux_replicate_none (n : Nat) :
    ffillAux none (List.replicate n none) = List.replicate n none := by
  induction n with
  | zero => rfl
  | succ m ih => simp [List.replicate_succ, ffillAux, ih]

theorem fillColumn_replicate_none (n : Nat) :
    fillColumn (List.replicate n none) = List.replicate n none := by
  have hf : ffill (List.replicate n none) = List.replicate n none :=
    ffillAux_replicate_none n
  simp [fillColumn, bfill, ffill, List.reverse_replicate, ffillAux_replicate_none n]

/-! ## Claims -/

/-- C1: portfolio non-negativity.  The rule engine's position size is
always at most 20, the advisory agent's parsed position size is clamped
to at most 20 (and the arbitration layer preserves the bound), and for
every run of the driver from initial cash 100000 and zero holdings over
any sequence of decisions whose position sizes are at most 20 (at
positive prices), cash and btc holdings are non-negative after every
step. -/
theorem c1_portfolio_nonneg :
    (∀ (market_data : MarketData) (portfolio_state : Portfolio),
      (rule_based_strategy market_data portfolio_state).position_size ≤ 20) ∧
    (∀ body : AIResponseBody, (parse_ai_response body).position_size ≤ 20) ∧
    (∀ (should_use rate_limited : Bool) (res : OracleOutcome) (rule_decision : Decision),
      rule_decision.position_size ≤ 20 →
      (get_ai_decision should_use rate_limited res rule_decision).position_size ≤ 20) ∧
    (∀ steps : List DriverStep,
      (∀ s ∈ steps, s.position_size ≤ 20 ∧ 0 < s.price) →
      ∀ pf ∈ runTrace steps initial_portfolio, 0 ≤ pf.cash ∧ 0 ≤ pf.btc) :=
  ⟨rule_based_strategy_size_le, parse_ai_response_size_le, get_ai_decision_size_le,
    fun steps hall =>
      runTrace_nonneg steps hall initial_portfolio (by norm_num [initial_portfolio,
        initial_cash]) (by norm_num [initial_portfolio])⟩

/-- Witness for C1: one executed BUY of 15% at price 50000 from the
initial portfolio leaves cash and holdings non-negative. -/
theorem c1_portfolio_nonneg_witness :
    0 ≤ (executeStep "BUY" 15 50000 initial_portfolio).1.cash ∧
      0 ≤ (executeStep "BUY" 15 50000 initial_portfolio).1.btc :=
  c1_portfolio_nonneg.2.2.2 [⟨"BUY", 15, 50000⟩] (by decide)
    (executeStep "BUY" 15 50000 initial_portfolio).1 (List.Mem.head _)

/-- C2: for every market snapshot and portfolio state, if ATR exceeds
the configured high-volatility threshold (`atr_high = 1000`),
`rule_based_strategy` returns action HOLD, regardless of all other
indicator values and of the portfolio state. -/
theorem c2_atr_precedence (market_data : MarketData) (portfolio_state : Portfolio)
    (h : market_data.atr > atr_high) :
    (rule_based_strategy market_data portfolio_state).action = "HOLD" := by
  simp [rule_based_strategy, h]

/-- Witness for C2 at a concrete snapshot with ATR 2000 and otherwise
strongly bullish, oversold inputs. -/
theorem c2_atr_precedence_witness :
    (rule_based_strategy ⟨50000, 20, 100, 200, 100, 100, 90, 5, 2000⟩
      ⟨100000, 0, 100000, 0⟩).action = "HOLD" :=
  c2_atr_precedence ⟨50000, 20, 100, 200, 100, 100, 90, 5, 2000⟩
    ⟨100000, 0, 100000, 0⟩ (by norm_num [atr_high])

/-- C5 counterexample: on the one-bar input the SMA_200 column is still
undefined after the forward-fill/backward-fill step — an all-undefined
column cannot be filled — so an undefined indicator value does survive
`calculate_technical_indicators` on a short series, contrary to the
claim that every indicator field of every output row is defined. -/
theorem c5_counterexample :
    (calculate_technical_indicators [⟨1, 1, 1⟩]).sma200 = [none] := by
  decide

/-- C5 (amended): for every input of fewer than 200 bars,
`calculate_technical_indicators` is total (it cannot crash), but the
SMA_200 column of its output consists entirely of undefined entries —
one per input row — even after forward-fill then backward-fill, so
undefined values do remain on short series. -/
theorem c5_short_series_amended (bars : List Bar) (h : bars.length < 200) :
    (calculate_technical_indicators bars).sma200 = List.replicate bars.length none := by
  have hlen : (bars.map Bar.close).length = bars.length := List.length_map bars Bar.close
  show fillColumn (rollingMeanQ 200 (bars.map Bar.close)) = List.replicate bars.length none
  rw [rollingMeanQ_short 200 (bars.map Bar.close) (by rw [hlen]; exact h), hlen,
    fillColumn_replicate_none]

/-- Witness for C5: the amended theorem applied to the one-bar input. -/
theorem c5_short_series_witness :
    (calculate_technical_indicators [⟨1, 1, 1⟩]).sma200 = List.replicate 1 none :=
  c5_short_series_amended [⟨1, 1, 1⟩] (by norm_num)

/-- C6: for every driver step whose final decision action is HOLD,
cash, btc holdings and realized profit are unchanged by the step, the
trade-executed flag is false, and total value is still recomputed as
cash + btc × current price. -/
theorem c6_hold_frame (position_size price : ℚ) (pf : Portfolio) :
    executeStep "HOLD" position_size price pf =
      ({ pf with total_value := pf.cash + pf.btc * price }, false) := by
  simp [executeStep, apply_trade]

/-- C7: a BUY decision with positive size whose traded amount
`cash × size/100` falls below the minimum trade size of 10 USD is a
silent no-op: the trade-executed flag is false and cash, btc and
realized profit are unchanged (only total value is revalued). -/
theorem c7_dust_rejection (position_size price : ℚ) (pf : Portfolio)
    (_hpos : 0 < position_size)
    (hdust : pf.cash * (position_size / 100) < min_trade_usd) :
    executeStep "BUY" position_size price pf =
      ({ pf with total_value := pf.cash + pf.btc * price }, false) := by
  by_cases hc : pf.cash > min_trade_usd
  · simp [executeStep, apply_trade, hc, not_le.mpr hdust]
  · simp [executeStep, apply_trade, hc]

/-- Witness for C7: the spec scenario cash = 50, size = 5% at price
50000 gives a traded amount of 2.50 USD, below the 10 USD minimum. -/
theorem c7_dust_rejection_witness :
    executeStep "BUY" 5 50000 ⟨50, 0, 50, 0⟩ =
      (⟨50, 0, 50 + 0 * 50000, 0⟩, false) :=
  c7_dust_rejection 5 50000 ⟨50, 0, 50, 0⟩ (by norm_num)
    (by norm_num [min_trade_usd])

/-- C3 counterexample: with the significance gate passed and the oracle
answering HTTP 200 with an unparseable body, `get_ai_decision` does not
return the rule decision unchanged — the parse fallback HOLD decision
is adopted in its place, because its action differs from the rule's BUY
and therefore passes the meaningful-improvement filter. -/
theorem c3_counterexample :
    get_ai_decision true false (.ok .malformed)
        ⟨"BUY", 15, "Bullish trend with RSI oversold - Strong buy signal", "RULE_BASED", none⟩ ≠
      ⟨"BUY", 15, "Bullish trend with RSI oversold - Strong buy signal", "RULE_BASED", none⟩ := by
  decide

/-- C3 (amended): every transport error (timeout, connection error, any
other raised exception) and every non-200 HTTP status makes
`get_ai_decision` return the original rule decision unchanged, with no
exception propagating; a malformed or unparseable 200 body instead
yields the safe fallback HOLD decision, which replaces the rule
decision exactly when it passes the meaningful-improvement filter and
is dropped in favour of the rule decision otherwise. -/
theorem c3_fail_closed_amended (rule_decision : Decision) :
    get_ai_decision true false .timeout rule_decision = rule_decision ∧
    get_ai_decision true false .connectionError rule_decision = rule_decision ∧
    get_ai_decision true false .otherError rule_decision = rule_decision ∧
    (∀ status : Nat,
      get_ai_decision true false (.httpError status) rule_decision = rule_decision) ∧
    get_ai_decision true false (.ok .malformed) rule_decision =
      (if is_meaningful_improvement rule_decision fallback_decision then fallback_decision
       else rule_decision) := by
  refine ⟨rfl, rfl, rfl, fun _ => rfl, ?_⟩
  simp [get_ai_decision, parse_ai_response]

/-- C4 evaluation at the failing input: with SMA50 = SMA200 = 100,
RSI = 20 < 35, ATR = 0 below threshold, cash available and no
holdings, the claim (and the unreachable sideways branch of the
source) prescribe BUY 5%, but `rule_based_strategy` classifies the
equal-SMA case as BEARISH and returns HOLD. -/
theorem c4_sideways_eval :
    rule_based_strategy ⟨100, 20, 100, 100, 100, 100, 100, 0, 0⟩ ⟨1000, 0, 1000, 0⟩ =
      ⟨"HOLD", 0, "Bearish but waiting for better exit", "RULE_BASED", none⟩ := by
  decide

/-- C8: on every executed SELL (holdings positive and a positive sell
quantity), realized profit increases by exactly
`max ((price - averageCostBasis) * tradedQuantity) 0` — only the
non-negative part of the per-trade delta — and consequently realized
profit is non-decreasing along every run of the driver loop. -/
theorem c8_realized_profit :
    (∀ (position_size price : ℚ) (pf : Portfolio),
      pf.btc > 0 → pf.btc * (position_size / 100) > 0 →
      (executeStep "SELL" position_size price pf).1.realized_profit =
        pf.realized_profit +
          max ((price - averageCostBasis pf) * (pf.btc * (position_size / 100))) 0) ∧
    (∀ (steps : List DriverStep) (pf0 : Portfolio),
      List.Chain (fun a b => a.realized_profit ≤ b.realized_profit) pf0
        (runTrace steps pf0)) := by
  constructor
  · intro position_size price pf hb hsq
    have hcomm : (price - averageCostBasis pf) * (pf.btc * (position_size / 100)) =
        pf.btc * (position_size / 100) * (price - pf.cash / pf.btc) := by
      rw [averageCostBasis]; ring
    rw [hcomm]
    show (apply_trade "SELL" position_size price pf).1.realized_profit = _
    simp [apply_trade, hb, hsq]
  · exact fun steps pf0 => runTrace_realized_chain steps pf0

/-- Witness for C8: selling 15% of 1 BTC at price 60000 with aggregate
cash 50000 realizes `max ((60000 - 50000) * 0.15) 0`. -/
theorem c8_realized_profit_witness :
    (executeStep "SELL" 15 60000 ⟨50000, 1, 110000, 0⟩).1.realized_profit =
      (Portfolio.mk 50000 1 110000 0).realized_profit +
        max ((60000 - averageCostBasis ⟨50000, 1, 110000, 0⟩) * (1 * (15 / 100))) 0 :=
  c8_realized_profit.1 15 60000 ⟨50000, 1, 110000, 0⟩ (by norm_num) (by norm_num)

/-- C9: when the oracle returns a well-formed candidate,
`get_ai_decision` adopts the parsed candidate in place of the rule
decision if and only if the candidate's action differs from the rule
decision's or its position size differs by more than 5 percentage
points; otherwise the rule decision is returned unchanged. -/
theorem c9_meaningful_filter (action : String) (position_size : ℚ) (reason : String)
    (improvement : Option String) (rule_decision : Decision) :
    get_ai_decision true false (.ok (.wellFormed action position_size reason improvement))
        rule_decision =
      (if rule_decision.action ≠
            (parse_ai_response (.wellFormed action position_size reason improvement)).action ∨
          |rule_decision.position_size -
            (parse_ai_response
              (.wellFormed action position_size reason improvement)).position_size| > 5
        then parse_ai_response (.wellFormed action position_size reason improvement)
        else rule_decision) := by
  by_cases h : rule_decision.action ≠
      (parse_ai_response (.wellFormed action position_size reason improvement)).action ∨
    |rule_decision.position_size -
      (parse_ai_response
        (.wellFormed action position_size reason improvement)).position_size| > 5
  · have hm := (is_meaningful_improvement_eq_true rule_decision
      (parse_ai_response (.wellFormed action position_size reason improvement))).mpr h
    simp [get_ai_decision, hm, h]
  · have hm : is_meaningful_improvement rule_decision
        (parse_ai_response (.wellFormed action position_size reason improvement)) = false := by
      rcases Bool.eq_false_or_eq_true (is_meaningful_improvement rule_decision
        (parse_ai_response (.wellFormed action position_size reason improvement))) with ht | hf
      · exact absurd ((is_meaningful_improvement_eq_true _ _).mp ht) h
      · exact hf
    simp [get_ai_decision, hm, h]

/-- C10: the average-cost-basis division `cash / btc` at line 682 is
guarded both by the SELL branch condition `btc > 0` and by the inline
conditional, so its `ZeroDivisionError` branch is unreachable: the
instrumented step never returns `none` and agrees with `apply_trade`
on every input. -/
theorem c10_division_guard (action : String) (position_size price : ℚ) (pf : Portfolio) :
    apply_trade_profit_checked action position_size price pf =
      some (apply_trade action position_size price pf) := by
  by_cases h1 : action = "BUY" ∧ pf.cash > min_trade_usd
  · by_cases h2 : pf.cash * (position_size / 100) ≥ min_trade_usd <;>
      simp [apply_trade_profit_checked, apply_trade, h1, h2]
  · by_cases h3 : action = "SELL" ∧ pf.btc > 0
    · by_cases h4 : pf.btc * (position_size / 100) > 0 <;>
        simp [apply_trade_profit_checked, apply_trade, h1, h3, h4, checkedDiv, h3.2,
          h3.2.ne']
    · simp [apply_trade_profit_checked, apply_trade, h1, h3]

end Backtest
